import Mathlib

/-!
# Verification of the latest-rating Kodi service add-on

Shallow embedding of the rating-refresh service:
* `resources/lib/rating_updater.py` — aggregation (`_fetch_rating`), per-item
  update loops (`update_movies`, `update_tvshow_episodes`), provider fetches
  (`_fetch_imdb_rating`, `_fetch_trakt_rating`), episode selection
  (`_get_tvshow_episodes`, `_is_recent_episode`);
* `resources/lib/rate_limiter.py` — `RateLimiter.wait_for_token`, `add_call`;
* `service.py` — `should_run_update`.

Numbers are modelled as exact rationals (`ℚ`) and integers; Python machine
floats are treated as exact arithmetic.  Time is modelled in seconds.
-/

/-! ## Python rounding

`round(x, 1)` in Python rounds half to even (banker's rounding).  We model it
exactly on rationals: scale by 10, round half-to-even to an integer, scale
back. -/

/-- Floor of a rational as an integer (`Int.fdiv` is floor division). -/
def ratFloorZ (q : ℚ) : ℤ := q.num.fdiv (q.den : ℤ)

/-- Python's `round` to an integer: nearest integer, ties to even. -/
def roundHalfEven (q : ℚ) : ℤ :=
  let f := ratFloorZ q
  let r := q - (f : ℚ)
  if r < 1 / 2 then f
  else if 1 / 2 < r then f + 1
  else if f % 2 = 0 then f else f + 1

/-- Python's `round(x, 1)`: one decimal place, ties to even. -/
def round1 (q : ℚ) : ℚ := (roundHalfEven (q * 10) : ℚ) / 10

/-! ## Aggregation (`RatingUpdater._fetch_rating`, lines 287–321)

The loop over sources yields a list of `(rating_value, vote_count)` samples
(`float`, `int`).  The accumulator keeps `total_rating_sum` and
`total_vote_count`; a sample contributes only when `rating_value > 0 and
vote_count > 0`.  If `total_vote_count == 0` the function returns `None`,
otherwise `round(total_rating_sum / total_vote_count, 1)`. -/

/-- One iteration of the accumulation loop in `_fetch_rating`. -/
def aggStep (acc : ℚ × ℤ) (s : ℚ × ℤ) : ℚ × ℤ :=
  if 0 < s.1 ∧ 0 < s.2 then (acc.1 + s.1 * (s.2 : ℚ), acc.2 + s.2) else acc

/-- `RatingUpdater._fetch_rating`, as a function of the collected samples. -/
def fetch_rating (samples : List (ℚ × ℤ)) : Option ℚ :=
  let acc := samples.foldl aggStep (0, 0)
  if acc.2 = 0 then none else some (round1 (acc.1 / (acc.2 : ℚ)))

/-- The samples kept by the positivity filter (spec §4.3 wording). -/
def keptSamples (samples : List (ℚ × ℤ)) : List (ℚ × ℤ) :=
  samples.filter (fun s => decide (0 < s.1 ∧ 0 < s.2))

/-- The aggregator as the spec words it: filter to positive samples, return
`None` on an empty filtered set, and otherwise the rounded vote-weighted
mean. -/
def aggregate (samples : List (ℚ × ℤ)) : Option ℚ :=
  let kept := keptSamples samples
  if kept = [] then none
  else
    some (round1 ((kept.map (fun s => s.1 * (s.2 : ℚ))).sum /
      (((kept.map Prod.snd).sum : ℤ) : ℚ)))

/-! ## Per-item write decision (`update_movies` lines 85–93,
`update_tvshow_episodes` lines 115–117)

`old_rating = round(float(item.get('rating', 0)), 1)`; the catalog write is
issued iff `new_rating and new_rating != old_rating` — Python truthiness of a
float (`None` and `0.0` are falsy) conjoined with inequality. -/

/-- The `SetMovieDetails` decision in `update_movies`. -/
def update_movie_decision (ratingRaw : ℚ) (newRating : Option ℚ) : Bool :=
  match newRating with
  | none => false
  | some r => decide (¬ r = 0) && decide (¬ r = round1 ratingRaw)

/-- The `SetEpisodeDetails` decision in `update_tvshow_episodes`. -/
def update_episode_decision (ratingRaw : ℚ) (newRating : Option ℚ) : Bool :=
  match newRating with
  | none => false
  | some r => decide (¬ r = 0) && decide (¬ r = round1 ratingRaw)

/-! ## Scheduling gate (`service.py`, `should_run_update` lines 19–31)

`should_run_update` returns `True` when `last_completion` is the empty string
(first run), or when `datetime.fromisoformat` raises `ValueError`, or when
`now >= last_completion + timedelta(days=interval_days)`.  Timestamps are
seconds; the ISO parse is an arbitrary parameter (its only observable
behaviour here is success with some timestamp, or failure). -/

def secondsPerDay : Int := 86400

/-- `RatingUpdaterService.should_run_update` (with `is_first_run` inlined:
both read the same `last_completion` setting). -/
def should_run_update (lastCompletion : String) (parseIso : String → Option Int)
    (intervalDays now : Int) : Bool :=
  if lastCompletion = "" then true
  else
    match parseIso lastCompletion with
    | none => true
    | some t => decide (t + intervalDays * secondsPerDay ≤ now)

/-! ## Python exceptions

The exception classes that the embedded code can raise or catch.
`jsonDecodeError` stands for `json.JSONDecodeError` (a `ValueError`
subclass, listed separately because the source names it in its `except`
clauses). -/

inductive PyExc where
  | requestException
  | jsonDecodeError
  | valueError
  | typeError
  | attributeError
deriving DecidableEq

/-! ## Episode update loop (`update_tvshow_episodes`, lines 95–119)

Per item the `try` block computes `old_rating`, formats the progress log
message `f"Processing {show_title} S{season:02d}E{episode_num:02d}"`
(line 106), fetches, and conditionally writes.  The `except` handler
(line 119) formats `f"Error updating {show_title} S{season:02d}E{episode_num:02d}"`
again.  Formatting `None` with `:02d` raises `TypeError`.  `_fetch_rating`
is modelled by its result (its internal per-source `try` never lets an
exception escape), and `_update_episode_rating` swallows its own errors. -/

structure EpisodeItem where
  showtitle : String
  season : Option Int
  episodeNum : Option Int
  ratingRaw : ℚ
  fetchResult : Option ℚ
  episodeid : Nat

/-- `f"S{n:02d}"`: formatting an `int` succeeds, formatting `None` raises
`TypeError` (`unsupported format string passed to NoneType.__format__`). -/
def fmt02d : Option Int → Except PyExc String
  | some n => .ok (toString n)
  | none => .error .typeError

/-- The `try` body for one episode (lines 101–117).  Returns the
`SetEpisodeDetails` call issued for the item, if any. -/
def processEpisodeBody (e : EpisodeItem) : Except PyExc (Option (Nat × ℚ)) :=
  match fmt02d e.season with
  | .error exc => .error exc
  | .ok _ =>
    match fmt02d e.episodeNum with
    | .error exc => .error exc
    | .ok _ =>
      match e.fetchResult with
      | none => .ok none
      | some r =>
        if r ≠ 0 ∧ r ≠ round1 e.ratingRaw then .ok (some (e.episodeid, r))
        else .ok none

/-- The `except` handler (line 119): it re-formats the season/episode
numbers, so it can itself raise. -/
def episodeErrorHandler (e : EpisodeItem) : Except PyExc Unit :=
  match fmt02d e.season with
  | .error exc => .error exc
  | .ok _ =>
    match fmt02d e.episodeNum with
    | .error exc => .error exc
    | .ok _ => .ok ()

/-- The per-item loop of `update_tvshow_episodes`: body exceptions go to the
handler; an exception escaping the handler aborts the whole loop.  The result
collects the `SetEpisodeDetails` calls issued. -/
def update_tvshow_episodes : List EpisodeItem → Except PyExc (List (Nat × ℚ))
  | [] => .ok []
  | e :: rest =>
    match processEpisodeBody e with
    | .ok w =>
      match update_tvshow_episodes rest with
      | .ok ws => .ok (w.toList ++ ws)
      | .error exc => .error exc
    | .error _ =>
      match episodeErrorHandler e with
      | .ok _ => update_tvshow_episodes rest
      | .error exc => .error exc

/-- An episode with no season number (`episode.get('season')` is `None`),
e.g. a special: line 106 raises `TypeError` inside the `try`, and the handler
raises `TypeError` again at `S{season:02d}`. -/
def epBad : EpisodeItem :=
  { showtitle := "Special", season := none, episodeNum := some 1,
    ratingRaw := 5, fetchResult := some 8, episodeid := 42 }

/-- A well-formed episode whose fetched rating 9.0 differs from its stored
rating 5.0, so processing it issues a write. -/
def epGood : EpisodeItem :=
  { showtitle := "Regular", season := some 1, episodeNum := some 2,
    ratingRaw := 5, fetchResult := some 9, episodeid := 43 }

/-! ## JSON values and Python coercions

Decoded JSON values (`json.loads` / `response.json()` results).  JSON `null`
decodes to Python `None`. -/

inductive JVal where
  | null
  | jbool (b : Bool)
  | num (q : ℚ)
  | str (s : String)
  | arr (elems : List JVal)
  | obj (fields : List (String × JVal))

/-- First-match lookup in a decoded JSON object. -/
def jLookup : List (String × JVal) → String → Option JVal
  | [], _ => none
  | (k, v) :: rest, key => if k = key then some v else jLookup rest key

/-- `x.get(key, default)`: only dicts have `.get`; on any other decoded JSON
value the attribute access raises `AttributeError`. -/
def pyGet (v : JVal) (key : String) (default : JVal) : Except PyExc JVal :=
  match v with
  | .obj fields => .ok ((jLookup fields key).getD default)
  | _ => .error .attributeError

def isNull : JVal → Bool
  | .null => true
  | _ => false

/-- A decoded value that is neither a JSON array nor an object. -/
def simpleJVal : JVal → Bool
  | .arr _ => false
  | .obj _ => false
  | _ => true

/-- Split a character list at every occurrence of a separator (the
character-level behaviour of `str.split(sep)`). -/
def splitOnChar (c : Char) : List Char → List (List Char)
  | [] => [[]]
  | x :: xs =>
    let rest := splitOnChar c xs
    if x = c then [] :: rest
    else
      match rest with
      | [] => [[x]]
      | y :: ys => (x :: y) :: ys

/-- Value of a digit string. -/
def digitsToNat (l : List Char) : Nat :=
  l.foldl (fun n c => 10 * n + (c.toNat - 48)) 0

/-- `float()` applied to a string: plain decimal literals only (exponents,
`inf`/`nan`, underscores and surrounding whitespace are not modelled; a
mismatch there only moves a case between "parses" and `ValueError`, both of
which the fetch functions absorb identically). -/
def parseUnsignedDecimal (l : List Char) : Option ℚ :=
  match splitOnChar '.' l with
  | [a] =>
      if a ≠ [] ∧ a.all Char.isDigit then some ((digitsToNat a : ℚ))
      else none
  | [a, b] =>
      if (a ≠ [] ∨ b ≠ []) ∧ a.all Char.isDigit ∧ b.all Char.isDigit then
        some ((digitsToNat a : ℚ) + (digitsToNat b : ℚ) / (10 ^ b.length : ℚ))
      else none
  | _ => none

def parseDecimal (s : String) : Option ℚ :=
  match s.toList with
  | '-' :: rest => (parseUnsignedDecimal rest).map Neg.neg
  | '+' :: rest => parseUnsignedDecimal rest
  | l => parseUnsignedDecimal l

/-- Python `float(x)` on a decoded JSON value: numbers and booleans convert,
strings parse or raise `ValueError`, everything else raises `TypeError`. -/
def pyFloat : JVal → Except PyExc ℚ
  | .num q => .ok q
  | .jbool b => .ok (if b then 1 else 0)
  | .str s =>
    match parseDecimal s with
    | some q => .ok q
    | none => .error .valueError
  | .null => .error .typeError
  | .arr _ => .error .typeError
  | .obj _ => .error .typeError

/-- An unsigned digit run, or `none`. -/
def parseUnsignedInteger (l : List Char) : Option ℤ :=
  if l ≠ [] ∧ l.all Char.isDigit then some ((digitsToNat l : ℤ)) else none

/-- `int()` applied to a string: an optional sign and digits only
(`int("7.5")` raises `ValueError`). -/
def parseInteger (s : String) : Option ℤ :=
  match s.toList with
  | '-' :: rest => (parseUnsignedInteger rest).map Neg.neg
  | '+' :: rest => parseUnsignedInteger rest
  | l => parseUnsignedInteger l

/-- Python `int(x)` on a decoded JSON value: floats truncate toward zero,
booleans convert, strings parse or raise `ValueError`, everything else raises
`TypeError`. -/
def pyInt : JVal → Except PyExc ℤ
  | .num q => .ok (if 0 ≤ q then ratFloorZ q else -(ratFloorZ (-q)))
  | .jbool b => .ok (if b then 1 else 0)
  | .str s =>
    match parseInteger s with
    | some n => .ok n
    | none => .error .valueError
  | .null => .error .typeError
  | .arr _ => .error .typeError
  | .obj _ => .error .typeError

/-! ## Provider fetches (`_fetch_imdb_rating` lines 348–378,
`_fetch_trakt_rating` lines 380–413)

The HTTP layer is modelled by its observable outcome: a network failure
(`requests.get` raising `RequestException`), or a response with a status code
and a decoded body.  For IMDb the body is abstracted to the result of the
`<script type="application/ld+json">` regex search followed by `json.loads`:
no match, a parse failure, or a decoded value.  For Trakt the body is the
result of `response.json()`.  The rate-limiter interaction inside the `try`
is a side effect that cannot raise and is left out here (it is modelled
separately below). -/

inductive ImdbResponse where
  | netFail
  | resp (status : Nat) (ldjson : Option (Except Unit JVal))

inductive TraktResponse where
  | netFail
  | resp (status : Nat) (body : Except Unit JVal)

/-- `response.raise_for_status()`: raises `HTTPError` (a `RequestException`)
on a 4xx/5xx status. -/
def raiseForStatus (status : Nat) : Except PyExc Unit :=
  if 400 ≤ status then .error .requestException else .ok ()

/-- The `try` body of `_fetch_imdb_rating` (lines 350–374). -/
def fetch_imdb_body (h : ImdbResponse) : Except PyExc (ℚ × ℤ) :=
  match h with
  | .netFail => .error .requestException
  | .resp status ldjson =>
    match raiseForStatus status with
    | .error exc => .error exc
    | .ok _ =>
      match ldjson with
      | none => .ok (-1, -1)
      | some (.error _) => .error .jsonDecodeError
      | some (.ok imdbJson) =>
        match pyGet imdbJson "aggregateRating" (JVal.obj []) with
        | .error exc => .error exc
        | .ok imdbRatings =>
          match pyGet imdbRatings "ratingValue" JVal.null with
          | .error exc => .error exc
          | .ok rating =>
            match pyGet imdbRatings "ratingCount" JVal.null with
            | .error exc => .error exc
            | .ok votes =>
              if !isNull rating && !isNull votes then
                match pyFloat rating with
                | .error exc => .error exc
                | .ok r =>
                  match pyInt votes with
                  | .error exc => .error exc
                  | .ok n => .ok (r, n)
              else .ok (-1, -1)

/-- The `except (requests.RequestException, json.JSONDecodeError, ValueError)`
clause shared by both fetch functions: those three classes become the
`(-1, -1)` sentinel; any other exception propagates. -/
def catchFetchExc (r : Except PyExc (ℚ × ℤ)) : Except PyExc (ℚ × ℤ) :=
  match r with
  | .error .requestException => .ok (-1, -1)
  | .error .jsonDecodeError => .ok (-1, -1)
  | .error .valueError => .ok (-1, -1)
  | r => r

/-- `RatingUpdater._fetch_imdb_rating`. -/
def fetch_imdb_rating (h : ImdbResponse) : Except PyExc (ℚ × ℤ) :=
  catchFetchExc (fetch_imdb_body h)

/-- The `try` body of `_fetch_trakt_rating` (lines 382–409). -/
def fetch_trakt_body (h : TraktResponse) : Except PyExc (ℚ × ℤ) :=
  match h with
  | .netFail => .error .requestException
  | .resp status body =>
    match raiseForStatus status with
    | .error exc => .error exc
    | .ok _ =>
      match body with
      | .error _ => .error .jsonDecodeError
      | .ok data =>
        match pyGet data "rating" JVal.null with
        | .error exc => .error exc
        | .ok rating =>
          match pyGet data "votes" JVal.null with
          | .error exc => .error exc
          | .ok votes =>
            if !isNull rating && !isNull votes then
              match pyFloat rating with
              | .error exc => .error exc
              | .ok r =>
                match pyInt votes with
                | .error exc => .error exc
                | .ok n => .ok (r, n)
            else .ok (-1, -1)

/-- `RatingUpdater._fetch_trakt_rating`. -/
def fetch_trakt_rating (h : TraktResponse) : Except PyExc (ℚ × ℤ) :=
  catchFetchExc (fetch_trakt_body h)

/-- Responses whose decoded body has the field shapes the code expects: the
JSON is an object, its `aggregateRating` (when present) is an object, and the
rating/vote fields (when present) are not arrays or objects. -/
def imdbBenign : ImdbResponse → Bool
  | .netFail => true
  | .resp _ none => true
  | .resp _ (some (.error _)) => true
  | .resp _ (some (.ok v)) =>
    match v with
    | .obj fields =>
      match (jLookup fields "aggregateRating").getD (JVal.obj []) with
      | .obj inner =>
          simpleJVal ((jLookup inner "ratingValue").getD JVal.null) &&
          simpleJVal ((jLookup inner "ratingCount").getD JVal.null)
      | _ => false
    | _ => false

/-- Trakt responses whose decoded body is an object with non-container
`rating`/`votes` fields. -/
def traktBenign : TraktResponse → Bool
  | .netFail => true
  | .resp _ (.error _) => true
  | .resp _ (.ok v) =>
    match v with
    | .obj fields =>
        simpleJVal ((jLookup fields "rating").getD JVal.null) &&
        simpleJVal ((jLookup fields "votes").getD JVal.null)
    | _ => false

/-- An IMDb page whose structured-data block decodes, but whose
`ratingValue` field is a JSON array: `float([])` raises `TypeError`. -/
def imdbBadResponse : ImdbResponse :=
  .resp 200 (some (.ok (.obj [("aggregateRating",
    .obj [("ratingValue", .arr []), ("ratingCount", .num 5)])])))

/-! ## Dates (`_is_recent_episode`, lines 273–285)

`datetime.strptime(date_str, '%Y-%m-%d')` accepts exactly four year digits
and one or two month/day digits, and validates the calendar date; failure
raises `ValueError`, which `_is_recent_episode` catches and maps to `False`.
Dates are compared through their rata-die day number (days since
0001-01-00 in the proleptic Gregorian calendar) scaled to seconds; the
parsed `datetime` is at midnight. -/

def isLeap (y : Nat) : Bool := (y % 4 == 0 && y % 100 != 0) || y % 400 == 0

def monthLengths (leap : Bool) : List Nat :=
  [31, if leap then 29 else 28, 31, 30, 31, 30, 31, 31, 30, 31, 30, 31]

def daysInMonth (y m : Nat) : Nat := (monthLengths (isLeap y)).getD (m - 1) 31

def daysBeforeMonth (y m : Nat) : Nat := ((monthLengths (isLeap y)).take (m - 1)).sum

/-- Day number of a Gregorian date (1-1-1 is day 1). -/
def toRataDie (y m d : Nat) : Int :=
  ((365 * (y - 1) + (y - 1) / 4 - (y - 1) / 100 + (y - 1) / 400 +
    daysBeforeMonth y m + d : Nat) : Int)

/-- `datetime.strptime(s, '%Y-%m-%d')`, returning the date or `none` for the
caught `ValueError` (exactly four year digits, one or two month/day digits,
month 1–12, day within the month, year at least 1). -/
def parseDate (s : String) : Option (Nat × Nat × Nat) :=
  match splitOnChar '-' s.toList with
  | [ys, ms, ds] =>
    if ys.length = 4 ∧ ys.all Char.isDigit ∧
       1 ≤ ms.length ∧ ms.length ≤ 2 ∧ ms.all Char.isDigit ∧
       1 ≤ ds.length ∧ ds.length ≤ 2 ∧ ds.all Char.isDigit then
      let y := digitsToNat ys
      let m := digitsToNat ms
      let d := digitsToNat ds
      if 1 ≤ y ∧ 1 ≤ m ∧ m ≤ 12 ∧ 1 ≤ d ∧ d ≤ daysInMonth y m then
        some (y, m, d)
      else none
    else none
  | _ => none

/-- `RatingUpdater._is_recent_episode`: empty or missing `firstaired` is not
recent; a malformed date string is not recent (caught `ValueError`);
otherwise compare the parsed midnight datetime with the cutoff. -/
def is_recent_episode (firstaired : Option String) (cutoff : Int) : Bool :=
  if firstaired.getD "" = "" then false
  else
    match parseDate (firstaired.getD "") with
    | none => false
    | some (y, m, d) => decide (cutoff ≤ toRataDie y m d * 86400)

/-! ## Episode selection (`_get_tvshow_episodes`, lines 175–271)

Catalog rows carry the fields the selector reads.  `uniqueid` is `none` when
the RPC field is not a dict. -/

structure ShowRow where
  tvshowid : Nat
  uniqueid : Option (List (String × String))
deriving DecidableEq

structure EpisodeRow where
  tvshowid : Nat
  firstaired : Option String
  uniqueid : Option (List (String × String))
deriving DecidableEq

/-- `show.get('uniqueid')` then `.get('imdb', '')` (empty when not a dict). -/
def showImdbOf (s : ShowRow) : String :=
  match s.uniqueid with
  | some l => (l.lookup "imdb").getD ""
  | none => ""

/-- `episode.get('uniqueid')` then `.get('imdb', '')`. -/
def episodeImdbOf (e : EpisodeRow) : String :=
  match e.uniqueid with
  | some l => (l.lookup "imdb").getD ""
  | none => ""

/-- The `show_imdb_map` dict: only non-empty ids are inserted; a later show
with the same id overwrites an earlier one (later entries listed first so
that `List.lookup`'s first match is the dict's last write). -/
def buildShowMap : List ShowRow → List (Nat × String)
  | [] => []
  | s :: rest =>
    buildShowMap rest ++ (if showImdbOf s = "" then [] else [(s.tvshowid, showImdbOf s)])

/-- The per-episode keep condition of the selection loop (lines 245–264):
recent air date, show id present in the map, episode imdb id non-empty. -/
def episodeKeep (showMap : List (Nat × String)) (cutoff : Int) (e : EpisodeRow) : Bool :=
  is_recent_episode e.firstaired cutoff &&
  (match showMap.lookup e.tvshowid with
   | some _ => true
   | none => false) &&
  decide (episodeImdbOf e ≠ "")

/-- `RatingUpdater._get_tvshow_episodes`, given the catalog's shows and
episodes: `cutoff = now - timedelta(days=months_back * 30)`. -/
def get_tvshow_episodes (shows : List ShowRow) (episodes : List EpisodeRow)
    (monthsBack : Nat) (now : Int) : List EpisodeRow :=
  let cutoff := now - ((monthsBack * 30 : Nat) : Int) * 86400
  episodes.filter (episodeKeep (buildShowMap shows) cutoff)

/-- The keep condition as the claim words it: the air date parses as
`YYYY-MM-DD` and is on or after `now - monthsBack*30 days`, the episode's own
imdb id is present and non-empty, and some catalog show with the episode's
`tvshowid` has a non-empty imdb id. -/
def claimKeep (shows : List ShowRow) (monthsBack : Nat) (now : Int)
    (e : EpisodeRow) : Bool :=
  (match parseDate (e.firstaired.getD "") with
   | some (y, m, d) =>
       decide (now - ((monthsBack * 30 : Nat) : Int) * 86400 ≤ toRataDie y m d * 86400)
   | none => false) &&
  decide (episodeImdbOf e ≠ "") &&
  shows.any (fun s => s.tvshowid == e.tvshowid && showImdbOf s != "")

/-- A catalog with one show carrying an imdb id. -/
def demoShows : List ShowRow := [{ tvshowid := 7, uniqueid := some [("imdb", "tt0903747")] }]

/-- An episode of that show first aired 2020-01-01. -/
def demoEpisode : EpisodeRow :=
  { tvshowid := 7, firstaired := some "2020-01-01", uniqueid := some [("imdb", "tt1234567")] }

/-- The same episode with a malformed air-date string. -/
def demoMalformed : EpisodeRow :=
  { tvshowid := 7, firstaired := some "01/01/2020", uniqueid := some [("imdb", "tt1234567")] }

/-! ## Trakt endpoint selection (`_fetch_trakt_rating`, lines 386–395)

`if is_movie: movie URL; elif season and episode: episode-ratings URL;
else: show URL` — `season and episode` is Python truthiness, so `None` *and
zero* both fail the test. -/

inductive TraktUrl where
  | movie (id : String)
  | show (id : String)
  | episodeRatings (id : String) (seasonNum episodeNum : Int)
deriving DecidableEq

/-- Python truthiness of an optional int: `None` and `0` are falsy. -/
def pyTruthyOptInt : Option Int → Bool
  | none => false
  | some n => decide (n ≠ 0)

/-- The URL selection in `_fetch_trakt_rating`. -/
def trakt_request_url (imdbId : String) (isMovie : Bool)
    (seasonArg episodeArg : Option Int) : TraktUrl :=
  if isMovie then .movie imdbId
  else if pyTruthyOptInt seasonArg && pyTruthyOptInt episodeArg then
    .episodeRatings imdbId (seasonArg.getD 0) (episodeArg.getD 0)
  else .show imdbId

/-! ## Rate limiter (`rate_limiter.py`)

Per-provider state: whether the provider key is in `self.calls`, and its
deque of timestamps, oldest first (time in seconds as rationals).  A call
result is the new queue state and the requested sleep duration in seconds
(`xbmc.sleep` receives it converted to whole milliseconds); `Except.error ()`
is the `IndexError` raised by `self.calls[source][0]` on an empty deque.  In
the error case Python keeps the already-popped deque; the state after an
escaped exception is not observed by any claim and is not modelled. -/

structure LimiterQueue where
  present : Bool
  times : List ℚ
deriving DecidableEq

/-- The `while` loop: pop from the left while the head is strictly older
than one second. -/
def dropStale (now : ℚ) : List ℚ → List ℚ
  | [] => []
  | t :: ts => if 1 < now - t then dropStale now ts else t :: ts

/-- `deque(maxlen=N).append`: appending to a full deque evicts the leftmost
element (with `maxlen=0` the append is a no-op). -/
def dequeAppend (maxlen : Nat) (xs : List ℚ) (x : ℚ) : List ℚ :=
  let ys := xs ++ [x]
  ys.drop (ys.length - maxlen)

/-- `RateLimiter.wait_for_token` for one provider (lines 10–27): an absent
provider gets a fresh deque holding `now` and the call returns immediately;
otherwise stale timestamps are dropped and, at capacity, the call sleeps for
`1 - (now - oldest)` seconds when that is positive. -/
def wait_for_token (callsPerSecond : Nat) (q : LimiterQueue) (now : ℚ) :
    Except Unit (LimiterQueue × ℚ) :=
  if q.present = false then
    .ok ({ present := true, times := dequeAppend callsPerSecond [] now }, 0)
  else
    let kept := dropStale now q.times
    if callsPerSecond ≤ kept.length then
      match kept with
      | [] => .error ()
      | oldest :: _ =>
        let waitTime := 1 - (now - oldest)
        .ok ({ present := true, times := kept }, if 0 < waitTime then waitTime else 0)
    else .ok ({ present := true, times := kept }, 0)

/-- `RateLimiter.add_call` (lines 29–33). -/
def add_call (callsPerSecond : Nat) (q : LimiterQueue) (now : ℚ) : LimiterQueue :=
  if q.present = false then { present := true, times := dequeAppend callsPerSecond [] now }
  else { present := true, times := dequeAppend callsPerSecond q.times now }

/-- The claim's wording of the drop: every recorded timestamp older than one
second is removed, every other one kept. -/
def keptFilter (now : ℚ) (l : List ℚ) : List ℚ :=
  l.filter (fun t => decide (now - t ≤ 1))

/-- The claim's wording of the wait: `1s - (now - oldest remaining)` when the
queue is still at capacity (clamped at zero), and no wait otherwise. -/
def waitSpec (N : Nat) (now : ℚ) (l : List ℚ) : ℚ :=
  if N ≤ (keptFilter now l).length then
    match keptFilter now l with
    | [] => 0
    | oldest :: _ => max 0 (1 - (now - oldest))
  else 0

/-! ## Helper lemmas -/

theorem aggStep_foldl (l : List (ℚ × ℤ)) (a : ℚ) (b : ℤ) :
    l.foldl aggStep (a, b) =
      (a + ((keptSamples l).map (fun s => s.1 * (s.2 : ℚ))).sum,
       b + ((keptSamples l).map Prod.snd).sum) := by
  induction l generalizing a b with
  | nil => simp [keptSamples]
  | cons x xs ih =>
    rw [List.foldl_cons]
    by_cases hx : 0 < x.1 ∧ 0 < x.2
    · have h1 : aggStep (a, b) x = (a + x.1 * (x.2 : ℚ), b + x.2) := by
        unfold aggStep; rw [if_pos hx]
      have h2 : keptSamples (x :: xs) = x :: keptSamples xs := by
        unfold keptSamples
        rw [List.filter_cons, decide_eq_true hx]
        simp
      rw [h1, ih, h2]
      simp only [List.map_cons, List.sum_cons, Prod.mk.injEq]
      constructor <;> ring
    · have h1 : aggStep (a, b) x = (a, b) := by
        unfold aggStep; rw [if_neg hx]
      have h2 : keptSamples (x :: xs) = keptSamples xs := by
        unfold keptSamples
        rw [List.filter_cons, decide_eq_false hx]
        simp
      rw [h1, ih, h2]

theorem sum_pos_of_forall_pos (l : List ℤ) (hpos : ∀ x ∈ l, 0 < x)
    (hne : l ≠ []) : 0 < l.sum := by
  induction l with
  | nil => exact absurd rfl hne
  | cons x xs ih =>
    rcases List.eq_nil_or_concat xs with h | _
    · subst h; simpa using hpos x (by simp)
    · have hx : 0 < x := hpos x (by simp)
      have hxs : 0 ≤ xs.sum := by
        rcases (List.eq_nil_or_concat xs) with h | h
        · simp [h]
        · have : 0 < xs.sum := by
            apply ih
            · intro y hy; exact hpos y (by simp [hy])
            · rcases h with ⟨l', a, rfl⟩; simp
          exact le_of_lt this
      simpa using add_pos_of_pos_of_nonneg hx hxs

theorem keptSamples_votes_pos (samples : List (ℚ × ℤ)) :
    ∀ x ∈ (keptSamples samples).map Prod.snd, 0 < x := by
  intro x hx
  rcases List.mem_map.mp hx with ⟨s, hs, rfl⟩
  have := List.mem_filter.mp hs
  exact (of_decide_eq_true this.2).2

theorem keptSamples_empty_iff_sum_zero (samples : List (ℚ × ℤ)) :
    keptSamples samples = [] ↔ ((keptSamples samples).map Prod.snd).sum = 0 := by
  constructor
  · intro h; simp [h]
  · intro h
    by_contra hne
    have hmapne : (keptSamples samples).map Prod.snd ≠ [] := by
      simpa using hne
    have := sum_pos_of_forall_pos _ (keptSamples_votes_pos samples) hmapne
    omega

/-- C1: aggregation keeps exactly the samples with rating > 0 and votes > 0;
it returns `none` iff the kept set is empty (equivalently, total kept votes
are zero) and otherwise the vote-weighted mean rounded to one decimal; on
`[(8.0, 100), (6.0, 50)]` it yields `7.3`. -/
theorem c1_aggregation (samples : List (ℚ × ℤ)) :
    fetch_rating samples = aggregate samples ∧
    (keptSamples samples = [] ↔ ((keptSamples samples).map Prod.snd).sum = 0) ∧
    fetch_rating [(8, 100), (6, 50)] = some (73 / 10) := by
  refine ⟨?_, keptSamples_empty_iff_sum_zero samples, by with_unfolding_all decide⟩
  unfold fetch_rating aggregate
  rw [aggStep_foldl samples 0 0]
  simp only [zero_add]
  by_cases h : keptSamples samples = []
  · simp [h, (keptSamples_empty_iff_sum_zero samples).mp h]
  · have hsum : ((keptSamples samples).map Prod.snd).sum ≠ 0 := by
      intro hz
      exact h ((keptSamples_empty_iff_sum_zero samples).mpr hz)
    simp [h, hsum]

/-- C3: whenever aggregation yields a rating, the catalog write is issued only
when the new rating differs from the stored rating rounded to one decimal, and
never when they are equal; a stored 7.9 with new rating 8.5 is written. -/
theorem c3_write_only_on_change :
    (∀ raw r : ℚ, update_movie_decision raw (some r) = true → r ≠ round1 raw) ∧
    (∀ raw : ℚ, update_movie_decision raw (some (round1 raw)) = false) ∧
    (∀ raw r : ℚ, update_episode_decision raw (some r) = true → r ≠ round1 raw) ∧
    (∀ raw : ℚ, update_episode_decision raw (some (round1 raw)) = false) ∧
    update_movie_decision (79 / 10) (some (85 / 10)) = true := by
  refine ⟨?_, ?_, ?_, ?_, by with_unfolding_all decide⟩
  · intro raw r h
    simp only [update_movie_decision, Bool.and_eq_true, decide_eq_true_eq] at h
    exact h.2
  · intro raw; simp [update_movie_decision]
  · intro raw r h
    simp only [update_episode_decision, Bool.and_eq_true, decide_eq_true_eq] at h
    exact h.2
  · intro raw; simp [update_episode_decision]

/-- Witness for C3 at stored raw rating 7.9 and new rating 8.5. -/
theorem c3_witness : (85 / 10 : ℚ) ≠ round1 (79 / 10) :=
  c3_write_only_on_change.1 (79 / 10) (85 / 10) (by with_unfolding_all decide)

/-- C9: an aggregated rating of exactly 0.0 is never written, even when it
differs from the stored rating — the condition tests float truthiness. -/
theorem c9_zero_rating_never_written :
    (∀ raw : ℚ, update_movie_decision raw (some 0) = false) ∧
    (∀ raw : ℚ, update_episode_decision raw (some 0) = false) ∧
    update_movie_decision (79 / 10) (some 0) = false ∧
    (0 : ℚ) ≠ round1 (79 / 10) := by
  refine ⟨?_, ?_, by with_unfolding_all decide, by with_unfolding_all decide⟩
  · intro raw; simp [update_movie_decision]
  · intro raw; simp [update_episode_decision]

/-- C4: the scheduling gate is true exactly when the stored completion
timestamp is unset, unparseable, or at least `intervalDays` old; it is false
one day before the interval elapses and true exactly at the interval. -/
theorem c4_schedule_gate (lastCompletion : String) (parseIso : String → Option Int)
    (intervalDays now : Int) :
    (should_run_update lastCompletion parseIso intervalDays now = true ↔
      lastCompletion = "" ∨ parseIso lastCompletion = none ∨
      ∃ t, parseIso lastCompletion = some t ∧ t + intervalDays * secondsPerDay ≤ now) ∧
    (∀ t, lastCompletion ≠ "" → parseIso lastCompletion = some t →
      should_run_update lastCompletion parseIso intervalDays
          (t + (intervalDays - 1) * secondsPerDay) = false ∧
      should_run_update lastCompletion parseIso intervalDays
          (t + intervalDays * secondsPerDay) = true) := by
  constructor
  · by_cases h : lastCompletion = ""
    · simp [should_run_update, h]
    · cases hp : parseIso lastCompletion with
      | none => simp [should_run_update, h, hp]
      | some t => simp [should_run_update, h, hp]
  · intro t hne hp
    constructor
    · simp only [should_run_update, if_neg hne, hp, decide_eq_false_iff_not,
        not_le, secondsPerDay]
      omega
    · simp only [should_run_update, if_neg hne, hp, decide_eq_true_eq,
        secondsPerDay]
      omega

/-- Witness for C4: a parse that succeeds at timestamp 0 with a 7-day
interval is not due after 6 days and due after 7. -/
theorem c4_witness :
    should_run_update "2024-01-01T00:00:00"
        (fun s => if s = "2024-01-01T00:00:00" then some 0 else none) 7
        ((0 : Int) + (7 - 1) * secondsPerDay) = false ∧
    should_run_update "2024-01-01T00:00:00"
        (fun s => if s = "2024-01-01T00:00:00" then some 0 else none) 7
        ((0 : Int) + 7 * secondsPerDay) = true :=
  (c4_schedule_gate "2024-01-01T00:00:00"
      (fun s => if s = "2024-01-01T00:00:00" then some 0 else none) 7 0).2
    0 (by decide) (by simp)

/-- C2 (code bug): an exception raised while processing one episode is meant
to be caught at the item boundary, but the handler itself re-formats
`S{season:02d}`; for an episode whose season is `None` the handler raises
`TypeError` and the loop aborts, so the remaining items are never processed —
here the second item's write, issued when it is processed alone, is lost. -/
theorem c2_batch_abort :
    update_tvshow_episodes [epBad, epGood] = Except.error PyExc.typeError ∧
    update_tvshow_episodes [epGood] = Except.ok [(43, (9 : ℚ))] :=
  ⟨by with_unfolding_all rfl, by with_unfolding_all rfl⟩

theorem catchFetchExc_isOk (r : Except PyExc (ℚ × ℤ))
    (h : ∀ e, r = .error e →
      e = PyExc.requestException ∨ e = PyExc.jsonDecodeError ∨ e = PyExc.valueError) :
    (catchFetchExc r).isOk = true := by
  cases r with
  | ok v => rfl
  | error e => rcases h e rfl with rfl | rfl | rfl <;> rfl

theorem pyFloat_soft (v : JVal) (hs : simpleJVal v = true) (hn : isNull v = false) :
    ∀ e, pyFloat v = .error e → e = PyExc.valueError := by
  intro e he
  cases v with
  | null => simp [isNull] at hn
  | jbool b => simp [pyFloat] at he
  | num q => simp [pyFloat] at he
  | str s =>
    cases hp : parseDecimal s with
    | some q => simp [pyFloat, hp] at he
    | none => simp [pyFloat, hp] at he; exact he.symm
  | arr elems => simp [simpleJVal] at hs
  | obj fields => simp [simpleJVal] at hs

theorem pyInt_soft (v : JVal) (hs : simpleJVal v = true) (hn : isNull v = false) :
    ∀ e, pyInt v = .error e → e = PyExc.valueError := by
  intro e he
  cases v with
  | null => simp [isNull] at hn
  | jbool b => simp [pyInt] at he
  | num q => simp [pyInt] at he
  | str s =>
    cases hp : parseInteger s with
    | some n => simp [pyInt, hp] at he
    | none => simp [pyInt, hp] at he; exact he.symm
  | arr elems => simp [simpleJVal] at hs
  | obj fields => simp [simpleJVal] at hs

theorem fetch_tail_soft (rating votes : JVal)
    (h1 : simpleJVal rating = true) (h2 : simpleJVal votes = true) :
    ∀ e,
      ((if !isNull rating && !isNull votes then
        match pyFloat rating with
        | Except.error exc => Except.error exc
        | Except.ok r =>
          match pyInt votes with
          | Except.error exc => Except.error exc
          | Except.ok n => Except.ok (r, n)
      else Except.ok (-1, -1)) : Except PyExc (ℚ × ℤ)) = Except.error e →
      e = PyExc.requestException ∨ e = PyExc.jsonDecodeError ∨ e = PyExc.valueError := by
  intro e he
  by_cases hnn : !isNull rating && !isNull votes
  · rw [if_pos hnn] at he
    rcases Bool.and_eq_true _ _ |>.mp hnn with ⟨hr, hv⟩
    rw [Bool.not_eq_true'] at hr hv
    cases hf : pyFloat rating with
    | error exc =>
      rw [hf] at he
      simp at he
      exact Or.inr (Or.inr (he.symm.trans (pyFloat_soft rating h1 hr exc hf)))
    | ok r =>
      rw [hf] at he
      cases hi : pyInt votes with
      | error exc =>
        rw [hi] at he
        simp at he
        exact Or.inr (Or.inr (he.symm.trans (pyInt_soft votes h2 hv exc hi)))
      | ok n => rw [hi] at he; simp at he
  · rw [if_neg hnn] at he; simp at he

theorem fetch_imdb_body_soft (h : ImdbResponse) (hb : imdbBenign h = true) :
    ∀ e, fetch_imdb_body h = .error e →
      e = PyExc.requestException ∨ e = PyExc.jsonDecodeError ∨ e = PyExc.valueError := by
  intro e he
  cases h with
  | netFail =>
    simp [fetch_imdb_body] at he
    exact Or.inl he.symm
  | resp status ldjson =>
    by_cases hst : 400 ≤ status
    · simp [fetch_imdb_body, raiseForStatus, hst] at he
      exact Or.inl he.symm
    · cases ldjson with
      | none => simp [fetch_imdb_body, raiseForStatus, hst] at he
      | some res =>
        cases res with
        | error u =>
          simp [fetch_imdb_body, raiseForStatus, hst] at he
          exact Or.inr (Or.inl he.symm)
        | ok v =>
          cases v with
          | null => simp [imdbBenign] at hb
          | jbool b => simp [imdbBenign] at hb
          | num q => simp [imdbBenign] at hb
          | str s => simp [imdbBenign] at hb
          | arr elems => simp [imdbBenign] at hb
          | obj fields =>
            cases hagg : (jLookup fields "aggregateRating").getD (JVal.obj []) with
            | obj inner =>
              simp only [imdbBenign, hagg, Bool.and_eq_true] at hb
              simp only [fetch_imdb_body, raiseForStatus, if_neg hst, pyGet,
                hagg] at he
              exact fetch_tail_soft _ _ hb.1 hb.2 e he
            | null => simp [imdbBenign, hagg] at hb
            | jbool b => simp [imdbBenign, hagg] at hb
            | num q => simp [imdbBenign, hagg] at hb
            | str s => simp [imdbBenign, hagg] at hb
            | arr elems => simp [imdbBenign, hagg] at hb

theorem fetch_trakt_body_soft (h : TraktResponse) (hb : traktBenign h = true) :
    ∀ e, fetch_trakt_body h = .error e →
      e = PyExc.requestException ∨ e = PyExc.jsonDecodeError ∨ e = PyExc.valueError := by
  intro e he
  cases h with
  | netFail =>
    simp [fetch_trakt_body] at he
    exact Or.inl he.symm
  | resp status body =>
    by_cases hst : 400 ≤ status
    · simp [fetch_trakt_body, raiseForStatus, hst] at he
      exact Or.inl he.symm
    · cases body with
      | error u =>
        simp [fetch_trakt_body, raiseForStatus, hst] at he
        exact Or.inr (Or.inl he.symm)
      | ok v =>
        cases v with
        | null => simp [traktBenign] at hb
        | jbool b => simp [traktBenign] at hb
        | num q => simp [traktBenign] at hb
        | str s => simp [traktBenign] at hb
        | arr elems => simp [traktBenign] at hb
        | obj fields =>
          simp only [traktBenign, Bool.and_eq_true] at hb
          simp only [fetch_trakt_body, raiseForStatus, if_neg hst, pyGet] at he
          exact fetch_tail_soft _ _ hb.1 hb.2 e he

/-- C5 counterexample: a 200 response whose structured data has a JSON array
in `ratingValue` makes `float([])` raise `TypeError`, which is not among the
caught exception classes and escapes `_fetch_imdb_rating`. -/
theorem c5_counterexample :
    fetch_imdb_rating imdbBadResponse = Except.error PyExc.typeError ∧
    (fetch_imdb_rating imdbBadResponse).isOk = false := ⟨rfl, rfl⟩

/-- C5 (amended): network failures, non-2xx statuses, missing structured
data, JSON parse failures, absent rating fields, and rating/vote fields that
are numbers, booleans, strings or null are all converted to the `(-1, -1)`
sentinel inside the fetch functions; but when the decoded body (or its
`aggregateRating` member) is not an object, or a rating/vote field is an
array or object, the `TypeError`/`AttributeError` raised is not caught and
propagates to the caller. -/
theorem c5_fetch_failures_contained (hi : ImdbResponse) (ht : TraktResponse)
    (h1 : imdbBenign hi = true) (h2 : traktBenign ht = true) :
    (fetch_imdb_rating hi).isOk = true ∧ (fetch_trakt_rating ht).isOk = true :=
  ⟨catchFetchExc_isOk _ (fetch_imdb_body_soft hi h1),
   catchFetchExc_isOk _ (fetch_trakt_body_soft ht h2)⟩

/-- Witness for C5 (amended): a 500-status IMDb response and a Trakt body
whose `rating` is the unparseable string `"abc"` both end in the sentinel
without an escaping exception. -/
theorem c5_witness :
    (fetch_imdb_rating (.resp 500 (some (.ok (.obj []))))).isOk = true ∧
    (fetch_trakt_rating (.resp 200 (.ok (.obj
      [("rating", .str "abc"), ("votes", .num 3)])))).isOk = true :=
  c5_fetch_failures_contained
    (.resp 500 (some (.ok (.obj []))))
    (.resp 200 (.ok (.obj [("rating", .str "abc"), ("votes", .num 3)])))
    rfl rfl

theorem parseDate_empty : parseDate "" = none := rfl

theorem is_recent_eq_parse (fa : Option String) (cutoff : Int) :
    is_recent_episode fa cutoff =
      (match parseDate (fa.getD "") with
       | some (y, m, d) => decide (cutoff ≤ toRataDie y m d * 86400)
       | none => false) := by
  by_cases h : fa.getD "" = ""
  · rw [is_recent_episode, if_pos h, h, parseDate_empty]
  · rw [is_recent_episode, if_neg h]
    cases parseDate (fa.getD "") with
    | none => rfl
    | some t => rcases t with ⟨y, m, d⟩; rfl

theorem lookup_append_isSome (a b : List (Nat × String)) (id : Nat) :
    ((a ++ b).lookup id).isSome = (((a.lookup id).isSome) || ((b.lookup id).isSome)) := by
  induction a with
  | nil => simp [List.lookup]
  | cons p rest ih =>
    rcases p with ⟨k, v⟩
    rw [List.cons_append]
    by_cases h : id = k
    · have hb : (id == k) = true := beq_iff_eq.mpr h
      simp [List.lookup, hb]
    · have hb : (id == k) = false := beq_false_of_ne h
      show (List.lookup id ((k, v) :: (rest ++ b))).isSome = _
      rw [List.lookup, hb]
      rw [show (List.lookup id ((k, v) :: rest)) = List.lookup id rest by
        rw [List.lookup, hb]]
      exact ih

theorem buildShowMap_lookup_isSome (shows : List ShowRow) (id : Nat) :
    ((buildShowMap shows).lookup id).isSome =
      shows.any (fun s => s.tvshowid == id && showImdbOf s != "") := by
  induction shows with
  | nil => rfl
  | cons s rest ih =>
    rw [buildShowMap, lookup_append_isSome, ih, List.any_cons]
    by_cases he : showImdbOf s = ""
    · rw [if_pos he, he]
      simp
    · rw [if_neg he]
      have hne : (showImdbOf s != "") = true := by
        simpa using he
      by_cases hid : id = s.tvshowid
      · subst hid
        simp [List.lookup, hne]
      · have hb1 : (id == s.tvshowid) = false := beq_false_of_ne hid
        have hb2 : (s.tvshowid == id) = false := beq_false_of_ne (Ne.symm hid)
        simp [List.lookup, hb1, hb2]

theorem episodeKeep_eq_claimKeep (shows : List ShowRow) (monthsBack : Nat)
    (now : Int) (e : EpisodeRow) :
    episodeKeep (buildShowMap shows) (now - ((monthsBack * 30 : Nat) : Int) * 86400) e =
      claimKeep shows monthsBack now e := by
  rw [episodeKeep, claimKeep, is_recent_eq_parse]
  have hmap : (match (buildShowMap shows).lookup e.tvshowid with
      | some _ => true
      | none => false) = ((buildShowMap shows).lookup e.tvshowid).isSome := by
    cases (buildShowMap shows).lookup e.tvshowid <;> rfl
  rw [hmap, buildShowMap_lookup_isSome, Bool.and_assoc, Bool.and_assoc]
  congr 1
  exact Bool.and_comm _ _

/-- C6: the selector keeps an episode exactly when its air date parses as
`YYYY-MM-DD` and is within the months-back window, its own imdb id is
present and non-empty, and its show's imdb id is present and non-empty;
malformed dates are excluded without raising.  The 2020-01-01 episode with a
24-months-back window is excluded at now = 2024-01-01 and included at
now = 2021-06-01. -/
theorem c6_episode_selection :
    (∀ (shows : List ShowRow) (episodes : List EpisodeRow) (monthsBack : Nat) (now : Int),
      get_tvshow_episodes shows episodes monthsBack now =
        episodes.filter (claimKeep shows monthsBack now)) ∧
    get_tvshow_episodes demoShows [demoEpisode] 24 (toRataDie 2024 1 1 * 86400) = [] ∧
    get_tvshow_episodes demoShows [demoEpisode] 24 (toRataDie 2021 6 1 * 86400) = [demoEpisode] ∧
    get_tvshow_episodes demoShows [demoMalformed] 24 (toRataDie 2021 6 1 * 86400) = [] := by
  refine ⟨?_, by decide, by decide, by decide⟩
  intro shows episodes monthsBack now
  rw [get_tvshow_episodes]
  exact List.filter_congr fun e _ => episodeKeep_eq_claimKeep shows monthsBack now e

/-- C7 counterexample: a non-movie request with season 0 (a special) and
episode 1 — both season and episode are present — selects the *show*
endpoint, not the episode-ratings endpoint, because `season and episode`
tests Python truthiness and `0` is falsy. -/
theorem c7_counterexample :
    trakt_request_url "tt0903747" false (some 0) (some 1) = TraktUrl.show "tt0903747" ∧
    TraktUrl.show "tt0903747" ≠ TraktUrl.episodeRatings "tt0903747" 0 1 :=
  ⟨rfl, by decide⟩

/-- C7 (amended): the movie endpoint is selected for movies; the
episode-ratings endpoint is selected for a non-movie exactly when season and
episode are both present *and non-zero* (Python truthiness); otherwise the
show endpoint is selected. -/
theorem c7_trakt_endpoint_selection (imdbId : String) (seasonArg episodeArg : Option Int) :
    trakt_request_url imdbId true seasonArg episodeArg = TraktUrl.movie imdbId ∧
    (∀ s e : Int, s ≠ 0 → e ≠ 0 →
      trakt_request_url imdbId false (some s) (some e) =
        TraktUrl.episodeRatings imdbId s e) ∧
    ((pyTruthyOptInt seasonArg && pyTruthyOptInt episodeArg) = false →
      trakt_request_url imdbId false seasonArg episodeArg = TraktUrl.show imdbId) := by
  refine ⟨rfl, ?_, ?_⟩
  · intro s e hs he
    simp [trakt_request_url, pyTruthyOptInt, hs, he]
  · intro h
    simp [trakt_request_url, h]

/-- Witness for C7 (amended): season 2 / episode 3 selects episode-ratings;
season and episode absent selects the show endpoint. -/
theorem c7_witness :
    trakt_request_url "tt0903747" false (some 2) (some 3) =
      TraktUrl.episodeRatings "tt0903747" 2 3 ∧
    trakt_request_url "tt0903747" false none none = TraktUrl.show "tt0903747" :=
  ⟨(c7_trakt_endpoint_selection "tt0903747" none none).2.1 2 3 (by decide) (by decide),
   (c7_trakt_endpoint_selection "tt0903747" none none).2.2 rfl⟩

theorem dropStale_eq_filter (now : ℚ) (l : List ℚ) (h : l.Pairwise (· ≤ ·)) :
    dropStale now l = keptFilter now l := by
  induction l with
  | nil => rfl
  | cons t ts ih =>
    rw [List.pairwise_cons] at h
    rw [dropStale, keptFilter, List.filter_cons]
    by_cases hst : 1 < now - t
    · have hd : (decide (now - t ≤ 1)) = false := decide_eq_false (not_le.mpr hst)
      rw [if_pos hst, hd, if_neg Bool.false_ne_true, ih h.2, keptFilter]
    · have hd : (decide (now - t ≤ 1)) = true := decide_eq_true (not_lt.mp hst)
      have hts : ts.filter (fun x => decide (now - x ≤ 1)) = ts :=
        List.filter_eq_self.mpr fun x hx =>
          decide_eq_true (by
            have h1 : t ≤ x := h.1 x hx
            have h2 : now - t ≤ 1 := not_lt.mp hst
            linarith)
      rw [if_neg hst, hd, if_pos rfl, hts]

theorem dropStale_sublist (now : ℚ) (l : List ℚ) :
    List.Sublist (dropStale now l) l := by
  induction l with
  | nil => exact List.Sublist.refl []
  | cons t ts ih =>
    rw [dropStale]
    by_cases hst : 1 < now - t
    · rw [if_pos hst]
      exact ih.trans (List.sublist_cons_self t ts)
    · rw [if_neg hst]

theorem if_pos_eq_max (w : ℚ) : (if 0 < w then w else 0) = max 0 w := by
  by_cases hw : 0 < w
  · rw [if_pos hw, max_eq_right (le_of_lt hw)]
  · rw [if_neg hw, max_eq_left (not_lt.mp hw)]

/-- C8 counterexample: with `calls_per_second = 0` the first call creates an
empty bounded deque (the append is a no-op at `maxlen=0`), and the second
call passes the capacity test with an empty queue and raises `IndexError` at
`self.calls[source][0]` — so `waitForSlot` is not failure-free for every
queue state. -/
theorem c8_counterexample :
    wait_for_token 0 { present := false, times := [] } 0 =
      Except.ok ({ present := true, times := [] }, 0) ∧
    wait_for_token 0 { present := true, times := [] } 1 = Except.error () :=
  ⟨by with_unfolding_all rfl, by with_unfolding_all rfl⟩

/-- C8 (amended): for a tracked provider with a chronologically ordered
queue and `calls_per_second ≥ 1`, `waitForSlot` never fails: it drops
exactly the timestamps older than one second and, if the queue is then still
at capacity, sleeps `1s - (now - oldest remaining)` (clamped at zero),
otherwise returns without waiting.  With `calls_per_second = 0` a call for an
already-tracked provider instead raises `IndexError`. -/
theorem c8_wait_for_slot (N : Nat) (q : LimiterQueue) (now : ℚ)
    (hN : 1 ≤ N) (hq : q.present = true) (hsorted : q.times.Pairwise (· ≤ ·)) :
    wait_for_token N q now =
      Except.ok ({ present := true, times := keptFilter now q.times },
        waitSpec N now q.times) := by
  have hdrop := dropStale_eq_filter now q.times hsorted
  rw [wait_for_token, if_neg (by simp [hq]), hdrop]
  by_cases hcap : N ≤ (keptFilter now q.times).length
  · rw [if_pos hcap]
    cases hk : keptFilter now q.times with
    | nil =>
      rw [hk] at hcap
      simp only [List.length_nil] at hcap
      omega
    | cons oldest rest =>
      rw [waitSpec, if_pos hcap, hk]
      show Except.ok (({ present := true, times := oldest :: rest } : LimiterQueue),
          if 0 < 1 - (now - oldest) then 1 - (now - oldest) else 0) =
        Except.ok (({ present := true, times := oldest :: rest } : LimiterQueue),
          max 0 (1 - (now - oldest)))
      rw [if_pos_eq_max]
  · rw [if_neg hcap, waitSpec, if_neg hcap]

/-- Witness for C8 (amended): with two recorded calls at 0s and 0.5s and
`now = 1.5s`, the 0s timestamp is dropped, the queue is below capacity 2,
and the call returns at once. -/
theorem c8_witness :
    wait_for_token 2 { present := true, times := [0, 1 / 2] } (3 / 2) =
      Except.ok ({ present := true, times := [(1 / 2 : ℚ)] }, 0) := by
  have h := c8_wait_for_slot 2 { present := true, times := [0, 1 / 2] } (3 / 2)
    (by decide) rfl (by with_unfolding_all decide)
  rw [h]
  with_unfolding_all rfl

/-- C10: the very first `waitForSlot` call for a provider creates its queue,
records the current time and returns immediately with no wait; a later call
for a tracked provider only removes expired timestamps (its resulting queue
is the stale-drop of the old one, a sublist — nothing is appended); and a
first call whose parse succeeds therefore occupies two recorded slots, one
from `waitForSlot` and one from `recordCall`. -/
theorem c10_limiter_slots (N : Nat) (q : LimiterQueue) (now later : ℚ) :
    (wait_for_token 2 { present := false, times := [] } now =
      Except.ok ({ present := true, times := [now] }, 0)) ∧
    (∀ q' w, q.present = true → wait_for_token N q now = Except.ok (q', w) →
      q'.times = dropStale now q.times ∧ List.Sublist q'.times q.times) ∧
    (add_call 2 { present := true, times := [now] } later =
      { present := true, times := [now, later] }) := by
  refine ⟨?_, ?_, ?_⟩
  · rw [wait_for_token, if_pos rfl]
    rfl
  · intro q' w hq heq
    rw [wait_for_token, if_neg (by simp [hq])] at heq
    by_cases hcap : N ≤ (dropStale now q.times).length
    · rw [if_pos hcap] at heq
      cases hk : dropStale now q.times with
      | nil =>
        rw [hk] at heq
        exact absurd heq (by simp)
      | cons oldest rest =>
        rw [hk] at heq
        have hq' : q' = { present := true, times := oldest :: rest } := by
          cases heq
          rfl
        rw [hq', ← hk]
        exact ⟨rfl, dropStale_sublist now q.times⟩
    · rw [if_neg hcap] at heq
      have hq' : q' = { present := true, times := dropStale now q.times } := by
        cases heq
        rfl
      rw [hq']
      exact ⟨rfl, dropStale_sublist now q.times⟩
  · rw [add_call, if_neg (by simp)]
    rfl

/-- Witness for C10: a tracked queue holding a 1s timestamp observed at
1.5s keeps exactly that timestamp — nothing is added by `waitForSlot`. -/
theorem c10_witness :
    ({ present := true, times := [(1 : ℚ)] } : LimiterQueue).times =
        dropStale (3 / 2) [(1 : ℚ)] ∧
      List.Sublist ({ present := true, times := [(1 : ℚ)] } : LimiterQueue).times
        [(1 : ℚ)] :=
  (c10_limiter_slots 2 { present := true, times := [(1 : ℚ)] } (3 / 2) 0).2.1
    { present := true, times := [(1 : ℚ)] } 0 rfl (by with_unfolding_all rfl)
